import Mathlib

/-!
Verification of the "white200" color-guessing game engine.

The JavaScript sources are shallowly embedded:
* numbers that the game keeps integral (color channels, milliseconds,
  try counters) become `Int`/`Nat`; the score, which is divided by
  `step^2`, becomes `Rat`;
* JavaScript's `%` operator (truncated remainder) is `Int.tmod`;
* `Math.random()`-driven choices (the Fisher-Yates indices and the
  answer pick) are passed in explicitly as parameters;
* nullable values become `Option`; strings become `List Char`.
-/

/-- JavaScript's `%` remainder operator on integers: truncated toward zero. -/
def jsMod (a b : Int) : Int := a.tmod b

/-- Lowercase hexadecimal digit character for `n < 16`,
as produced by JavaScript's `Number.prototype.toString(16)`. -/
def hexDigitChar (n : Nat) : Char :=
  if n < 10 then Char.ofNat (48 + n) else Char.ofNat (87 + n)

/-- The digit loop of `Number.prototype.toString(16)`, with structural
fuel so that the kernel can evaluate it (`n` itself bounds the number of
divisions by 16). -/
def natToHex16Go (fuel : Nat) (n : Nat) : List Char :=
  match fuel with
  | 0 => []
  | fuel + 1 =>
    if n < 16 then [hexDigitChar n]
    else natToHex16Go fuel (n / 16) ++ [hexDigitChar (n % 16)]

/-- JavaScript's `Number.prototype.toString(16)` on a natural number. -/
def natToHex16 (n : Nat) : List Char := natToHex16Go (n + 1) n

/-- JavaScript's `Number.prototype.toString(16)` on an integer:
negative numbers render as a minus sign followed by the digits of the
absolute value. -/
def intToHex16 (n : Int) : List Char :=
  if n < 0 then '-' :: natToHex16 n.natAbs else natToHex16 n.toNat

/-- JavaScript's `String.prototype.padStart(2, "0")`. -/
def padStart2 (s : List Char) : List Char :=
  List.replicate (2 - s.length) '0' ++ s

/-- A 3-channel color; channels are the raw integers the JavaScript
object stores (always the result of `% 0x100`). -/
structure Color where
  r : Int
  g : Int
  b : Int
deriving DecidableEq, Repr

/-- `Color.paddedHex` from the source: `(n % 0x100).toString(16).padStart(2, "0")`. -/
def Color.paddedHex (n : Int) : List Char :=
  padStart2 (intToHex16 (jsMod n 256))

/-- The `Color` constructor: each channel is reduced with JavaScript's
`% 0x100`. -/
def Color.new (r g b : Int) : Color :=
  ⟨jsMod r 256, jsMod g 256, jsMod b 256⟩

/-- `Color.prototype.toString`: `#` followed by the three padded hex channels. -/
def Color.toString (c : Color) : List Char :=
  '#' :: (Color.paddedHex c.r ++ Color.paddedHex c.g ++ Color.paddedHex c.b)

/-- The character class `[0-9a-f]` under the `i` (case-insensitive) regex flag. -/
def isHexDigitCI (c : Char) : Bool :=
  ('0' ≤ c && c ≤ '9') || ('a' ≤ c && c ≤ 'f') || ('A' ≤ c && c ≤ 'F')

/-- Numeric value of a hexadecimal digit character (either case). -/
def hexDigitVal (c : Char) : Nat :=
  if '0' ≤ c && c ≤ '9' then c.toNat - 48
  else if 'a' ≤ c && c ≤ 'f' then c.toNat - 87
  else c.toNat - 55

/-- One attempt of the regex `/#([0-9a-f]{2})([0-9a-f]{2})([0-9a-f]{2})/i`
at the start of the text: `#` followed by six hex digits, anything after. -/
def matchHexAt : List Char → Option (Nat × Nat × Nat)
  | '#' :: c1 :: c2 :: c3 :: c4 :: c5 :: c6 :: _ =>
    if isHexDigitCI c1 && isHexDigitCI c2 && isHexDigitCI c3 &&
       isHexDigitCI c4 && isHexDigitCI c5 && isHexDigitCI c6 then
      some (16 * hexDigitVal c1 + hexDigitVal c2,
            16 * hexDigitVal c3 + hexDigitVal c4,
            16 * hexDigitVal c5 + hexDigitVal c6)
    else none
  | _ => none

/-- `String.prototype.match` with the unanchored regex above: try every
start position from the left, return the first match's captured groups. -/
def searchHexMatch : List Char → Option (Nat × Nat × Nat)
  | [] => none
  | c :: cs =>
    match matchHexAt (c :: cs) with
    | some v => some v
    | none => searchHexMatch cs

/-- `Color.fromHex`: regex-match the text, `null` when there is no match,
otherwise build the color from the three parsed 2-digit groups. -/
def Color.fromHex (s : List Char) : Option Color :=
  (searchHexMatch s).map fun v => Color.new v.1 v.2.1 v.2.2

/-- `Color.prototype.eq`: false against `null`, per-channel equality otherwise. -/
def Color.eq (c : Color) (other : Option Color) : Bool :=
  match other with
  | none => false
  | some o => c.r == o.r && c.g == o.g && c.b == o.b

/-- `Color.prototype.diff`: squared channel distance, `-1` against `null`. -/
def Color.diff (c : Color) (other : Option Color) : Int :=
  match other with
  | none => -1
  | some o => (c.r - o.r) ^ 2 + (c.g - o.g) ^ 2 + (c.b - o.b) ^ 2

/-- `Color.prototype.cloneWithDiff`: subtract `multiplier`-scaled offsets
from every channel (the new channels go through the constructor's `% 0x100`). -/
def Color.cloneWithDiff (c : Color) (dr dg db mult : Int) : Color :=
  Color.new (c.r - dr * mult) (c.g - dg * mult) (c.b - db * mult)

/-- Swap two positions of a list; the identity when either index is out of
range (JavaScript's destructuring swap of two in-range indices never is). -/
def listSwap {α : Type} (l : List α) (i j : Nat) : List α :=
  match l.get? i, l.get? j with
  | some a, some b => (l.set i b).set j a
  | _, _ => l

/-- The Fisher-Yates loop of `shuffle`: for `i` from the given index down
to `1`, swap position `i` with position `rnd i`, where `rnd i` stands for
the `Math.floor(Math.random() * (i + 1))` drawn at that iteration. -/
def shuffleGo {α : Type} (rnd : Nat → Nat) : Nat → List α → List α
  | 0, l => l
  | i + 1, l => shuffleGo rnd i (listSwap l (i + 1) (rnd (i + 1)))

/-- `shuffle`: copies the array (the embedding is pure, so only the loop
is modeled) and runs the Fisher-Yates loop from the last index. -/
def shuffle {α : Type} (rnd : Nat → Nat) (l : List α) : List α :=
  shuffleGo rnd (l.length - 1) l

/-- Pure white, `new Color(255, 255, 255)`. -/
def white : Color := Color.new 255 255 255

/-- The triple loop of the `Game` constructor: all 216 offset
combinations `r, g, b` in `0..5`, red-major order, each pushed as
`white.cloneWithDiff(r, g, b, difficulty)`. -/
def gameLattice (difficulty : Int) : List Color :=
  (List.range 6).flatMap fun r =>
    (List.range 6).flatMap fun g =>
      (List.range 6).map fun b =>
        white.cloneWithDiff r g b difficulty

/-- The state the `Game` constructor initializes. -/
structure Game where
  score : Rat
  tryCount : Nat
  startTime : Option Int
  colorStep : Int
  colors : List Color
  answer : Option Color
deriving DecidableEq, Repr

/-- The `Game` constructor (`new Game(num, difficulty)`): score 1000 for
difficulty 1 and 100 otherwise, the shuffled lattice truncated with
`slice(0, num)`, and the answer read at the random index `pick`
(`Math.floor(Math.random() * this.colors.length)`); reading an index of
an empty array yields `undefined`, hence the `Option`. -/
def Game.make (num : Nat) (difficulty : Int) (rnd : Nat → Nat) (pick : Nat) : Game :=
  let colors := (shuffle rnd (gameLattice difficulty)).take num
  { score := if difficulty = 1 then 1000 else 100
    tryCount := 0
    startTime := none
    colorStep := difficulty
    colors := colors
    answer := colors.get? pick }

/-- `ColorToHex` from the array-based variant: `toString(16)`, left-padded
with one `0` when a single digit. -/
def ColorToHex (color : Int) : List Char :=
  let h := intToHex16 color
  if h.length == 1 then '0' :: h else h

/-- `ConvertRGBtoHex`: the three channel hex strings concatenated (no `#`). -/
def ConvertRGBtoHex (col : Int × Int × Int) : List Char :=
  ColorToHex col.1 ++ ColorToHex col.2.1 ++ ColorToHex col.2.2

/-- The mutable globals of the array-based game variant. -/
structure GState where
  ac_color : Int × Int × Int
  ac_color_hex : List Char
  color_step : Int
  try_num : Nat
  score_num : Rat
  enable_submit : Bool
  score_history5 : List (Option Rat)
  miss_cnt : List (List Char × Nat)
deriving DecidableEq, Repr

/-- The initial values of the globals: no answer, step 0, submission
disabled, five placeholder (`"---"`) history slots, empty miss map. -/
def initState : GState :=
  { ac_color := (-1, -1, -1)
    ac_color_hex := []
    color_step := 0
    try_num := 0
    score_num := 0
    enable_submit := false
    score_history5 := [none, none, none, none, none]
    miss_cnt := [] }

/-- Lookup in the `miss_cnt` object, modeled as an association list. -/
def lookupCnt : List (List Char × Nat) → List Char → Option Nat
  | [], _ => none
  | (k, v) :: rest, key => if k = key then some v else lookupCnt rest key

/-- Update of the `miss_cnt` object. -/
def setCnt : List (List Char × Nat) → List Char → Nat → List (List Char × Nat)
  | [], key, v => [(key, v)]
  | (k, w) :: rest, key, v =>
    if k = key then (k, v) :: rest else (k, w) :: setCnt rest key v

/-- The completion-comment chain of the success branch, in source order:
tutorial when the step is not 1, then first-try, then fast solve
(at most 10000 ms), then at most 10 tries, else empty.  The first
component is the shared comment, the second the one shown on screen. -/
def classifyComment (color_step : Int) (try_num : Nat) (time : Int) :
    List Char × List Char :=
  if color_step ≠ 1 then
    ("| チュートリアルを完了しました！".data, "チュートリアル終了！".data)
  else if try_num = 1 then
    ("| 一発で白を見つけられました！".data, "一発で見つけられた！".data)
  else if time ≤ 10000 then
    ("| 素早く白を見つけられました！".data, "素早く見つけられた！".data)
  else if try_num ≤ 10 then
    ("| 10回以内に白を見つけられました！".data, "10回以内に見つけた！".data)
  else ([], [])

/-- The averaging loop over `score_history5`: accumulate the entries,
bailing out with `"---"` (here `none`) at the first placeholder. -/
def aveLoop : List (Option Rat) → Option Rat
  | [] => some 0
  | none :: _ => none
  | some v :: rest =>
    match aveLoop rest with
    | none => none
    | some a => some (v + a)

/-- Squared channel distance between two integer triples. -/
def sqDist (a c : Int × Int × Int) : Int :=
  (a.1 - c.1) ^ 2 + (a.2.1 - c.2.1) ^ 2 + (a.2.2 - c.2.2) ^ 2

/-- What a `submit` call reports (through the DOM in the source). -/
inductive Outcome where
  | notArmed
  | hit (comment comment2 : List Char) (ave : Option Rat)
  | miss (penalty : Rat) (missCount : Nat)
deriving DecidableEq, Repr

/-- `submit(r, g, b)` of the richest variant.  `time` is the elapsed
milliseconds `update_timer()` reads off the clock.  Early return when
submission is disabled; otherwise the try counter always increments; a
hex match is a hit: submission is disabled, the comment chain runs, and
for step 1 the history is shifted/pushed and its average taken (`none`
for `"---"`); a mismatch is a miss: the per-hex miss counter is set to 1
or incremented, and the squared distance over `color_step**2` is
subtracted from the score. -/
def submit (r g b : Int) (time : Int) (s : GState) : GState × Outcome :=
  if s.enable_submit = false then (s, .notArmed)
  else
    let col_hex := ConvertRGBtoHex (r, g, b)
    let try_num' := s.try_num + 1
    if col_hex = s.ac_color_hex then
      let c := classifyComment s.color_step try_num' time
      if s.color_step = 1 then
        let hist := s.score_history5.tail ++ [some s.score_num]
        let ave := (aveLoop hist).map fun a => a / 5
        ({ s with try_num := try_num', enable_submit := false,
                  score_history5 := hist },
         .hit c.1 c.2 ave)
      else
        ({ s with try_num := try_num', enable_submit := false },
         .hit c.1 c.2 none)
    else
      let cnt :=
        match lookupCnt s.miss_cnt col_hex with
        | none => 1
        | some k => k + 1
      let dif : Rat := ((sqDist s.ac_color (r, g, b) : Int) : Rat) /
        ((s.color_step : Rat) ^ 2)
      ({ s with try_num := try_num',
                score_num := s.score_num - dif,
                miss_cnt := setCnt s.miss_cnt col_hex cnt },
       .miss dif cnt)

/-- The lattice built by `make_problem`: `[255 - r*dif, 255 - g*dif,
255 - b*dif]` for `r, g, b` in `0..5`, red-major order (plain arrays,
no `% 0x100` in this variant). -/
def problemLattice (dif : Int) : List (Int × Int × Int) :=
  (List.range 6).flatMap fun r =>
    (List.range 6).flatMap fun g =>
      (List.range 6).map fun b =>
        (255 - r * dif, 255 - g * dif, 255 - b * dif)

/-- `make_problem(num, dif)`: shuffles the lattice, shows the first `num`
entries, takes the answer at the random index `pick`
(`Math.floor(Math.random() * num)`), resets the miss map, score, try
counter, and re-enables submission.  `score_history5` persists from the
previous state. -/
def make_problem (num : Nat) (dif : Int) (rnd : Nat → Nat) (pick : Nat)
    (s : GState) : GState :=
  let list := shuffle rnd (problemLattice dif)
  let ac := list.getD pick (0, 0, 0)
  { ac_color := ac
    ac_color_hex := ConvertRGBtoHex ac
    color_step := dif
    try_num := 0
    score_num := if dif = 1 then 1000 else 100
    enable_submit := true
    score_history5 := s.score_history5
    miss_cnt := [] }

/-- A sample armed hardest-difficulty round used to instantiate the
engine theorems: the answer is pure white, hex `ffffff`, score 1000. -/
def exampleArmedState : GState :=
  { ac_color := (255, 255, 255)
    ac_color_hex := "ffffff".data
    color_step := 1
    try_num := 0
    score_num := 1000
    enable_submit := true
    score_history5 := [none, none, none, none, none]
    miss_cnt := [] }

/-- The shape the specification calls a well-formed hex color string:
exactly `#` followed by six hex digits and nothing else. -/
def wellFormedHexStr : List Char → Bool
  | '#' :: c1 :: c2 :: c3 :: c4 :: c5 :: c6 :: [] =>
    isHexDigitCI c1 && isHexDigitCI c2 && isHexDigitCI c3 &&
    isHexDigitCI c4 && isHexDigitCI c5 && isHexDigitCI c6
  | _ => false

/-- Channels of a real (in-range) color byte triple: each in `0..255`. -/
def validTriple (c : Int × Int × Int) : Prop :=
  (0 ≤ c.1 ∧ c.1 < 256) ∧ (0 ≤ c.2.1 ∧ c.2.1 < 256) ∧ (0 ≤ c.2.2 ∧ c.2.2 < 256)

instance : DecidablePred validTriple := fun c => by
  unfold validTriple
  infer_instance

/-! ### Generic list lemmas about swapping and the Fisher-Yates loop -/

theorem set_get?_self {α : Type} :
    ∀ (l : List α) (i : Nat) (a : α), l.get? i = some a → l.set i a = l
  | [], _, _, h => by simp at h
  | x :: xs, 0, a, h => by
    simp only [List.get?_cons_zero, Option.some.injEq] at h
    simp [h]
  | x :: xs, i + 1, a, h => by
    simp only [List.get?_cons_succ] at h
    simp [List.set, set_get?_self xs i a h]

theorem cons_set_perm {α : Type} :
    ∀ (xs : List α) (k : Nat) (x b : α),
      xs.get? k = some b → (b :: xs.set k x).Perm (x :: xs)
  | [], _, _, _, h => by simp at h
  | y :: ys, 0, x, b, h => by
    simp only [List.get?_cons_zero, Option.some.injEq] at h
    subst h
    simpa using List.Perm.swap x y ys
  | y :: ys, k + 1, x, b, h => by
    simp only [List.get?_cons_succ] at h
    have ih := cons_set_perm ys k x b h
    have h1 : (b :: y :: ys.set k x).Perm (y :: b :: ys.set k x) :=
      (List.Perm.swap b y (ys.set k x)).symm
    have h2 : (y :: b :: ys.set k x).Perm (y :: x :: ys) := ih.cons y
    have h3 : (y :: x :: ys).Perm (x :: y :: ys) := List.Perm.swap x y ys
    simpa using (h1.trans h2).trans h3

theorem set_set_perm {α : Type} :
    ∀ (l : List α) (i j : Nat) (a b : α),
      l.get? i = some a → l.get? j = some b → ((l.set i b).set j a).Perm l
  | [], _, _, _, _, hi, _ => by simp at hi
  | x :: xs, 0, 0, a, b, hi, hj => by
    simp only [List.get?_cons_zero, Option.some.injEq] at hi hj
    subst hi
    simp
  | x :: xs, 0, j + 1, a, b, hi, hj => by
    simp only [List.get?_cons_zero, Option.some.injEq] at hi
    simp only [List.get?_cons_succ] at hj
    subst hi
    simpa [List.set] using cons_set_perm xs j x b hj
  | x :: xs, i + 1, 0, a, b, hi, hj => by
    simp only [List.get?_cons_zero, Option.some.injEq] at hj
    simp only [List.get?_cons_succ] at hi
    subst hj
    simpa [List.set] using cons_set_perm xs i x a hi
  | x :: xs, i + 1, j + 1, a, b, hi, hj => by
    simp only [List.get?_cons_succ] at hi hj
    simpa [List.set] using (set_set_perm xs i j a b hi hj).cons x

theorem listSwap_perm {α : Type} (l : List α) (i j : Nat) :
    (listSwap l i j).Perm l := by
  unfold listSwap
  cases hi : l.get? i with
  | none => simp
  | some a =>
    cases hj : l.get? j with
    | none => simp
    | some b => exact set_set_perm l i j a b hi hj

theorem shuffleGo_perm {α : Type} (rnd : Nat → Nat) :
    ∀ (i : Nat) (l : List α), (shuffleGo rnd i l).Perm l
  | 0, l => List.Perm.refl l
  | i + 1, l =>
    (shuffleGo_perm rnd i _).trans (listSwap_perm l (i + 1) (rnd (i + 1)))

theorem shuffle_perm {α : Type} (rnd : Nat → Nat) (l : List α) :
    (shuffle rnd l).Perm l :=
  shuffleGo_perm rnd (l.length - 1) l

theorem listSwap_self {α : Type} (l : List α) (i : Nat) : listSwap l i i = l := by
  unfold listSwap
  cases h : l.get? i with
  | none => simp
  | some a => simp [List.set_set, set_get?_self l i a h]

theorem shuffleGo_id {α : Type} :
    ∀ (i : Nat) (l : List α), shuffleGo (fun k => k) i l = l
  | 0, _ => rfl
  | i + 1, l => by
    show shuffleGo (fun k => k) i (listSwap l (i + 1) (i + 1)) = l
    rw [listSwap_self, shuffleGo_id i l]

theorem shuffle_id {α : Type} (l : List α) : shuffle (fun k => k) l = l :=
  shuffleGo_id (l.length - 1) l

/-! ### The 216-offset lattice -/

/-- The 216 offset triples `(r, g, b)` with each component in `0..5`,
in the loop order of the sources. -/
def offsetTriples : List (Nat × Nat × Nat) :=
  (List.range 6).flatMap fun r =>
    (List.range 6).flatMap fun g =>
      (List.range 6).map fun b => (r, g, b)

theorem gameLattice_eq_map (d : Int) :
    gameLattice d =
      offsetTriples.map fun t => white.cloneWithDiff t.1 t.2.1 t.2.2 d := rfl

theorem problemLattice_eq_map (d : Int) :
    problemLattice d =
      offsetTriples.map fun t =>
        ((255 : Int) - t.1 * d, (255 : Int) - t.2.1 * d, (255 : Int) - t.2.2 * d) := rfl

set_option maxRecDepth 4096 in
theorem offsetTriples_length : offsetTriples.length = 216 := by decide

set_option maxRecDepth 4096 in
theorem offsetTriples_nodup : offsetTriples.Nodup := by decide

set_option maxRecDepth 4096 in
theorem offsetTriples_bounds :
    ∀ t ∈ offsetTriples, t.1 ≤ 5 ∧ t.2.1 ≤ 5 ∧ t.2.2 ≤ 5 := by decide

/-! ### JavaScript remainder arithmetic -/

theorem jsMod_eq_self {n : Int} (h0 : 0 ≤ n) (h1 : n < 256) :
    jsMod n 256 = n := by
  unfold jsMod
  lift n to ℕ using h0 with m
  have h : Int.tmod (m : Int) (256 : Int) = ((m % 256 : Nat) : Int) := rfl
  rw [h]
  have hm : m < 256 := by exact_mod_cast h1
  rw [Nat.mod_eq_of_lt hm]

theorem jsMod_eq_emod {n : Int} (h0 : 0 ≤ n) : jsMod n 256 = n % 256 := by
  unfold jsMod
  lift n to ℕ using h0 with m
  have h : Int.tmod (m : Int) (256 : Int) = ((m % 256 : Nat) : Int) := rfl
  rw [h]
  norm_cast

/-! ### Claim C10: shuffle is a permutation -/

/-- C10: for every random source and every input list, `shuffle` returns a
list containing exactly the same elements with the same multiplicities (a
permutation of the input); the source operates on a spread copy, and the
embedding is pure, so the caller's list is untouched by construction. -/
theorem shuffle_is_permutation {α : Type} [DecidableEq α]
    (rnd : Nat → Nat) (l : List α) :
    (shuffle rnd l).Perm l ∧ ∀ a : α, (shuffle rnd l).count a = l.count a :=
  ⟨shuffle_perm rnd l, fun a => (shuffle_perm rnd l).count_eq a⟩

/-! ### Claim C7: constructor wraps channels modulo 256 -/

/-- C7: on the documented domain (non-negative integers) every channel
stored by the `Color` constructor is the input reduced modulo 256 —
wrapping, not clamping — and in particular red 260 is stored as 4. -/
theorem color_constructor_wraps_mod256 :
    (∀ r g b : Int, 0 ≤ r → 0 ≤ g → 0 ≤ b →
      Color.new r g b = ⟨r % 256, g % 256, b % 256⟩) ∧
    Color.new 260 0 0 = ⟨4, 0, 0⟩ := by
  constructor
  · intro r g b hr hg hb
    unfold Color.new
    rw [jsMod_eq_emod hr, jsMod_eq_emod hg, jsMod_eq_emod hb]
  · decide

/-- Witness for C7 at the concrete input (260, 300, 70). -/
theorem color_constructor_wraps_mod256_witness :
    (0 ≤ (260 : Int) ∧ 0 ≤ (300 : Int) ∧ 0 ≤ (70 : Int)) ∧
    Color.new 260 300 70 = ⟨260 % 256, 300 % 256, 70 % 256⟩ :=
  ⟨by decide,
   color_constructor_wraps_mod256.1 260 300 70 (by decide) (by decide) (by decide)⟩

/-! ### Claim C3: submissions are rejected while not armed -/

/-- C3: when submission is not enabled — on the never-started initial
state or after a hit disabled it — `submit` returns the not-armed outcome
and leaves the whole state (in particular `try_num` and `score_num`)
unchanged; a hit disables submission, and `make_problem` re-enables it. -/
theorem submit_not_armed_rejected :
    (∀ (r g b t : Int) (s : GState), s.enable_submit = false →
      submit r g b t s = (s, Outcome.notArmed)) ∧
    initState.enable_submit = false ∧
    (∀ (r g b t : Int) (s : GState), s.enable_submit = true →
      ConvertRGBtoHex (r, g, b) = s.ac_color_hex →
      (submit r g b t s).1.enable_submit = false) ∧
    (∀ (num : Nat) (dif : Int) (rnd : Nat → Nat) (pick : Nat) (s : GState),
      (make_problem num dif rnd pick s).enable_submit = true) := by
  refine ⟨?_, rfl, ?_, ?_⟩
  · intro r g b t s h
    simp [submit, h]
  · intro r g b t s h1 h2
    simp [submit, h1, h2]
    split <;> simp
  · intro num dif rnd pick s
    rfl

/-- Witness for C3: a submission against the initial state is rejected
unchanged. -/
theorem submit_not_armed_rejected_witness :
    initState.enable_submit = false ∧
    submit 10 20 30 0 initState = (initState, Outcome.notArmed) :=
  ⟨rfl, submit_not_armed_rejected.1 10 20 30 0 initState rfl⟩

/-! ### Claim C5: completion-comment priority -/

/-- C5: on a hit the comment pair is chosen by the first matching rule of
the source's chain — step not 1 gives the tutorial comment; else one try
gives the first-try comment; else at most 10000 ms gives the fast-solve
comment; else at most 10 tries gives the low-try-count comment; else the
comment is empty — and `submit`'s hit outcome carries exactly that pair,
with the try counter already incremented.  In particular a first-try
solve at step 1 gets the first-try comment for every elapsed time. -/
theorem hit_comment_priority :
    (∀ (step : Int) (tn : Nat) (t : Int), step ≠ 1 →
      classifyComment step tn t =
        ("| チュートリアルを完了しました！".data, "チュートリアル終了！".data)) ∧
    (∀ t : Int,
      classifyComment 1 1 t =
        ("| 一発で白を見つけられました！".data, "一発で見つけられた！".data)) ∧
    (∀ (tn : Nat) (t : Int), tn ≠ 1 → t ≤ 10000 →
      classifyComment 1 tn t =
        ("| 素早く白を見つけられました！".data, "素早く見つけられた！".data)) ∧
    (∀ (tn : Nat) (t : Int), tn ≠ 1 → 10000 < t → tn ≤ 10 →
      classifyComment 1 tn t =
        ("| 10回以内に白を見つけられました！".data, "10回以内に見つけた！".data)) ∧
    (∀ (tn : Nat) (t : Int), tn ≠ 1 → 10000 < t → 10 < tn →
      classifyComment 1 tn t = ([], [])) ∧
    (∀ (r g b t : Int) (s : GState), s.enable_submit = true →
      ConvertRGBtoHex (r, g, b) = s.ac_color_hex →
      ∃ ave, (submit r g b t s).2 =
        Outcome.hit (classifyComment s.color_step (s.try_num + 1) t).1
                    (classifyComment s.color_step (s.try_num + 1) t).2 ave) := by
  refine ⟨?_, ?_, ?_, ?_, ?_, ?_⟩
  · intro step tn t h
    simp [classifyComment, h]
  · intro t
    simp [classifyComment]
  · intro tn t h1 h2
    simp [classifyComment, h1, h2]
  · intro tn t h1 h2 h3
    simp [classifyComment, h1, h3]
    omega
  · intro tn t h1 h2 h3
    simp [classifyComment, h1]
    rw [if_neg (by omega), if_neg (by omega)]
  · intro r g b t s h1 h2
    simp [submit, h1, h2]
    split
    · exact ⟨_, rfl⟩
    · exact ⟨_, rfl⟩

/-- Witness for C5 at step 1, one try, 20000 ms elapsed: the first-try
comment wins although the solve was slow. -/
theorem hit_comment_priority_witness :
    classifyComment 1 1 20000 =
      ("| 一発で白を見つけられました！".data, "一発で見つけられた！".data) :=
  hit_comment_priority.2.1 20000

/-! ### Claim C6: rolling 5-slot score history and average -/

/-- C6: on a hit at step 1 the final score is pushed onto the 5-slot
rolling history, evicting the oldest entry (so a 5-entry history stays at
5 entries), and the hit outcome reports the average of the new history:
the arithmetic mean of the five scores when all five are real, and the
unavailable marker (`none`, the source's `"---"`) when any placeholder
remains.  After histories [900, 950, 1000, 850, 1000] the mean is 940,
and the next push evicts the 900. -/
theorem hit_rolling_history :
    (∀ (r g b t : Int) (s : GState), s.enable_submit = true →
      ConvertRGBtoHex (r, g, b) = s.ac_color_hex → s.color_step = 1 →
      (submit r g b t s).1.score_history5 =
        s.score_history5.tail ++ [some s.score_num] ∧
      (s.score_history5.length = 5 →
        (submit r g b t s).1.score_history5.length = 5) ∧
      ∃ c1 c2, (submit r g b t s).2 =
        Outcome.hit c1 c2
          ((aveLoop (s.score_history5.tail ++ [some s.score_num])).map
            fun a => a / 5)) ∧
    (∀ q1 q2 q3 q4 q5 : Rat,
      (aveLoop [some q1, some q2, some q3, some q4, some q5]).map
          (fun a => a / 5) =
        some ((q1 + q2 + q3 + q4 + q5) / 5)) ∧
    (∀ h : List (Option Rat), none ∈ h → aveLoop h = none) ∧
    ((aveLoop [some 900, some 950, some 1000, some 850, some 1000]).map
        (fun a => a / 5) = some 940) ∧
    (∀ x : Option Rat,
      ([some 900, some 950, some 1000, some 850, some 1000] :
          List (Option Rat)).tail ++ [x] =
        [some 950, some 1000, some 850, some 1000, x]) := by
  refine ⟨?_, ?_, ?_, by simp [aveLoop]; norm_num, fun x => rfl⟩
  · intro r g b t s h1 h2 h3
    refine ⟨?_, ?_, ?_⟩
    · simp [submit, h1, h2, h3]
    · intro h5
      simp [submit, h1, h2, h3, h5]
    · simp [submit, h1, h2, h3]
  · intro q1 q2 q3 q4 q5
    simp [aveLoop]
    ring
  · intro h hm
    induction h with
    | nil => simp at hm
    | cons x xs ih =>
      cases x with
      | none => rfl
      | some v =>
        simp at hm
        simp [aveLoop, ih hm]

/-- Witness for C6: a winning submission on the sample armed state shifts
the all-placeholder history and reports the average as unavailable. -/
theorem hit_rolling_history_witness :
    (exampleArmedState.enable_submit = true ∧
      ConvertRGBtoHex (255, 255, 255) = exampleArmedState.ac_color_hex ∧
      exampleArmedState.color_step = 1) ∧
    ((submit 255 255 255 0 exampleArmedState).1.score_history5 =
        exampleArmedState.score_history5.tail ++
          [some exampleArmedState.score_num] ∧
      (exampleArmedState.score_history5.length = 5 →
        (submit 255 255 255 0 exampleArmedState).1.score_history5.length = 5) ∧
      ∃ c1 c2, (submit 255 255 255 0 exampleArmedState).2 =
        Outcome.hit c1 c2
          ((aveLoop (exampleArmedState.score_history5.tail ++
              [some exampleArmedState.score_num])).map fun a => a / 5)) :=
  ⟨⟨rfl, by decide, rfl⟩,
   hit_rolling_history.1 255 255 255 0 exampleArmedState rfl (by decide) rfl⟩

/-! ### Hex encoding lemmas -/

set_option maxRecDepth 2048 in
theorem hexDigitChar_inj :
    ∀ a : Nat, a < 16 → ∀ b : Nat, b < 16 →
      hexDigitChar a = hexDigitChar b → a = b := by decide

set_option maxRecDepth 10000 in
theorem ColorToHex_eq_digits :
    ∀ m : Nat, m < 256 →
      ColorToHex (m : Int) = [hexDigitChar (m / 16), hexDigitChar (m % 16)] := by
  decide

theorem ColorToHex_inj {x y : Int}
    (hx0 : 0 ≤ x) (hx1 : x < 256) (hy0 : 0 ≤ y) (hy1 : y < 256)
    (h : ColorToHex x = ColorToHex y) : x = y := by
  lift x to ℕ using hx0 with m
  lift y to ℕ using hy0 with k
  have hm : m < 256 := by exact_mod_cast hx1
  have hk : k < 256 := by exact_mod_cast hy1
  rw [ColorToHex_eq_digits m hm, ColorToHex_eq_digits k hk] at h
  simp only [List.cons.injEq, and_true] at h
  have h1 := hexDigitChar_inj _ (by omega) _ (by omega) h.1
  have h2 := hexDigitChar_inj _ (by omega) _ (by omega) h.2
  have : m = k := by omega
  exact_mod_cast this

theorem ColorToHex_length {x : Int} (hx0 : 0 ≤ x) (hx1 : x < 256) :
    (ColorToHex x).length = 2 := by
  lift x to ℕ using hx0 with m
  rw [ColorToHex_eq_digits m (by exact_mod_cast hx1)]
  rfl

theorem ConvertRGBtoHex_inj {a c : Int × Int × Int}
    (ha : validTriple a) (hc : validTriple c)
    (h : ConvertRGBtoHex a = ConvertRGBtoHex c) : a = c := by
  obtain ⟨⟨ha1, ha1'⟩, ⟨ha2, ha2'⟩, ⟨ha3, ha3'⟩⟩ := ha
  obtain ⟨⟨hc1, hc1'⟩, ⟨hc2, hc2'⟩, ⟨hc3, hc3'⟩⟩ := hc
  unfold ConvertRGBtoHex at h
  rw [List.append_assoc, List.append_assoc] at h
  obtain ⟨h1, h23⟩ := List.append_inj h
    ((ColorToHex_length ha1 ha1').trans (ColorToHex_length hc1 hc1').symm)
  obtain ⟨h2, h3⟩ := List.append_inj h23
    ((ColorToHex_length ha2 ha2').trans (ColorToHex_length hc2 hc2').symm)
  have e1 := ColorToHex_inj ha1 ha1' hc1 hc1' h1
  have e2 := ColorToHex_inj ha2 ha2' hc2 hc2' h2
  have e3 := ColorToHex_inj ha3 ha3' hc3 hc3' h3
  obtain ⟨x1, x2, x3⟩ := a
  obtain ⟨y1, y2, y3⟩ := c
  simp_all

/-! ### Association-list lemmas for the miss counter -/

theorem lookupCnt_setCnt_self :
    ∀ (m : List (List Char × Nat)) (k : List Char) (v : Nat),
      lookupCnt (setCnt m k v) k = some v := by
  intro m k v
  induction m with
  | nil => simp [setCnt, lookupCnt]
  | cons p rest ih =>
    obtain ⟨k', w⟩ := p
    by_cases h : k' = k <;> simp [setCnt, lookupCnt, h, ih]

/-- A single miss step of `submit`, fully characterized: the try counter
increments, the penalty is subtracted, and the per-hex miss counter is
set to its previous value plus one (one on a first miss). -/
theorem submit_miss (r g b t : Int) (s : GState)
    (h1 : s.enable_submit = true)
    (hhex : ConvertRGBtoHex (r, g, b) ≠ s.ac_color_hex) :
    submit r g b t s =
      ({ s with
          try_num := s.try_num + 1
          score_num := s.score_num -
            ((sqDist s.ac_color (r, g, b) : Int) : Rat) / ((s.color_step : Rat) ^ 2)
          miss_cnt := setCnt s.miss_cnt (ConvertRGBtoHex (r, g, b))
            ((lookupCnt s.miss_cnt (ConvertRGBtoHex (r, g, b))).getD 0 + 1) },
       Outcome.miss
         (((sqDist s.ac_color (r, g, b) : Int) : Rat) / ((s.color_step : Rat) ^ 2))
         ((lookupCnt s.miss_cnt (ConvertRGBtoHex (r, g, b))).getD 0 + 1)) := by
  cases hl : lookupCnt s.miss_cnt (ConvertRGBtoHex (r, g, b)) <;>
    simp [submit, h1, hhex, hl]

/-! ### Claim C2: miss penalty and per-hex miss counter -/

/-- C2: in an armed round, a valid submitted color different from the
answer is a miss: the squared distance divided by the square of the step
is subtracted from the score; the per-round miss counter for that hex is
its previous value plus one (so 1 on the first miss of that color); and
an identical second wrong guess subtracts the same penalty again
(cumulatively) and raises the counter once more. -/
theorem miss_penalty_and_counter :
    ∀ (s : GState) (r g b t : Int),
      s.enable_submit = true →
      s.ac_color_hex = ConvertRGBtoHex s.ac_color →
      validTriple (r, g, b) →
      validTriple s.ac_color →
      (r, g, b) ≠ s.ac_color →
      (submit r g b t s).2 =
        Outcome.miss
          (((sqDist s.ac_color (r, g, b) : Int) : Rat) / ((s.color_step : Rat) ^ 2))
          ((lookupCnt s.miss_cnt (ConvertRGBtoHex (r, g, b))).getD 0 + 1) ∧
      (submit r g b t s).1.score_num =
        s.score_num -
          ((sqDist s.ac_color (r, g, b) : Int) : Rat) / ((s.color_step : Rat) ^ 2) ∧
      lookupCnt (submit r g b t s).1.miss_cnt (ConvertRGBtoHex (r, g, b)) =
        some ((lookupCnt s.miss_cnt (ConvertRGBtoHex (r, g, b))).getD 0 + 1) ∧
      (submit r g b t (submit r g b t s).1).1.score_num =
        s.score_num -
          2 * (((sqDist s.ac_color (r, g, b) : Int) : Rat) /
            ((s.color_step : Rat) ^ 2)) ∧
      lookupCnt (submit r g b t (submit r g b t s).1).1.miss_cnt
          (ConvertRGBtoHex (r, g, b)) =
        some ((lookupCnt s.miss_cnt (ConvertRGBtoHex (r, g, b))).getD 0 + 2) := by
  intro s r g b t h1 h2 hv1 hv2 hne
  have hhex : ConvertRGBtoHex (r, g, b) ≠ s.ac_color_hex := by
    rw [h2]
    intro he
    exact hne (ConvertRGBtoHex_inj hv1 hv2 he)
  have e1 := submit_miss r g b t s h1 hhex
  rw [e1]
  have e2 := submit_miss r g b t
    ({ s with
        try_num := s.try_num + 1
        score_num := s.score_num -
          ((sqDist s.ac_color (r, g, b) : Int) : Rat) / ((s.color_step : Rat) ^ 2)
        miss_cnt := setCnt s.miss_cnt (ConvertRGBtoHex (r, g, b))
          ((lookupCnt s.miss_cnt (ConvertRGBtoHex (r, g, b))).getD 0 + 1) })
    h1 hhex
  rw [e2]
  refine ⟨rfl, rfl, ?_, ?_, ?_⟩
  · simp [lookupCnt_setCnt_self]
  · ring
  · simp [lookupCnt_setCnt_self]

/-- Witness for C2: on the sample armed round (answer white, step 1,
score 1000), submitting (250, 250, 250) at squared distance 75. -/
theorem miss_penalty_and_counter_witness :
    (exampleArmedState.enable_submit = true ∧
     exampleArmedState.ac_color_hex = ConvertRGBtoHex exampleArmedState.ac_color ∧
     validTriple (250, 250, 250) ∧
     validTriple exampleArmedState.ac_color ∧
     ((250 : Int), (250 : Int), (250 : Int)) ≠ exampleArmedState.ac_color) ∧
    ((submit 250 250 250 0 exampleArmedState).2 =
       Outcome.miss
         (((sqDist exampleArmedState.ac_color (250, 250, 250) : Int) : Rat) /
           ((exampleArmedState.color_step : Rat) ^ 2))
         ((lookupCnt exampleArmedState.miss_cnt
             (ConvertRGBtoHex (250, 250, 250))).getD 0 + 1) ∧
     (submit 250 250 250 0 exampleArmedState).1.score_num =
       exampleArmedState.score_num -
         ((sqDist exampleArmedState.ac_color (250, 250, 250) : Int) : Rat) /
           ((exampleArmedState.color_step : Rat) ^ 2) ∧
     lookupCnt (submit 250 250 250 0 exampleArmedState).1.miss_cnt
         (ConvertRGBtoHex (250, 250, 250)) =
       some ((lookupCnt exampleArmedState.miss_cnt
           (ConvertRGBtoHex (250, 250, 250))).getD 0 + 1) ∧
     (submit 250 250 250 0 (submit 250 250 250 0 exampleArmedState).1).1.score_num =
       exampleArmedState.score_num -
         2 * (((sqDist exampleArmedState.ac_color (250, 250, 250) : Int) : Rat) /
           ((exampleArmedState.color_step : Rat) ^ 2)) ∧
     lookupCnt
         (submit 250 250 250 0 (submit 250 250 250 0 exampleArmedState).1).1.miss_cnt
         (ConvertRGBtoHex (250, 250, 250)) =
       some ((lookupCnt exampleArmedState.miss_cnt
           (ConvertRGBtoHex (250, 250, 250))).getD 0 + 2)) :=
  ⟨⟨rfl, by decide, by decide, by decide, by decide⟩,
   miss_penalty_and_counter exampleArmedState 250 250 250 0 rfl (by decide)
     (by decide) (by decide) (by decide)⟩

/-! ### Lattice structure lemmas for palette generation -/

theorem gameLattice_length (d : Int) : (gameLattice d).length = 216 := by
  rw [gameLattice_eq_map, List.length_map, offsetTriples_length]

theorem cloneWithDiff_in_range (ro go bo : Nat) (step : Int)
    (hr : ro ≤ 5) (hg : go ≤ 5) (hb : bo ≤ 5) (h0 : 0 ≤ step)
    (h5 : 5 * step ≤ 255) :
    white.cloneWithDiff ro go bo step =
      ⟨255 - (ro : Int) * step, 255 - (go : Int) * step,
       255 - (bo : Int) * step⟩ := by
  have bound : ∀ k : Nat, k ≤ 5 →
      0 ≤ 255 - (k : Int) * step ∧ 255 - (k : Int) * step < 256 := by
    intro k hk
    have h1 : (k : Int) * step ≤ 5 * step := by
      apply mul_le_mul_of_nonneg_right _ h0
      exact_mod_cast hk
    have h2 : 0 ≤ (k : Int) * step := mul_nonneg (by positivity) h0
    omega
  obtain ⟨hr0, hr1⟩ := bound ro hr
  obtain ⟨hg0, hg1⟩ := bound go hg
  obtain ⟨hb0, hb1⟩ := bound bo hb
  rw [show white = (⟨255, 255, 255⟩ : Color) from by decide]
  show Color.new (255 - (ro : Int) * step) (255 - (go : Int) * step)
    (255 - (bo : Int) * step) = _
  unfold Color.new
  rw [jsMod_eq_self hr0 hr1, jsMod_eq_self hg0 hg1, jsMod_eq_self hb0 hb1]

theorem gameLattice_nodup (step : Int) (hs1 : 1 ≤ step) (hs5 : 5 * step ≤ 255) :
    (gameLattice step).Nodup := by
  rw [gameLattice_eq_map]
  apply List.Nodup.map_on _ offsetTriples_nodup
  intro t1 ht1 t2 ht2 heq
  obtain ⟨b11, b12, b13⟩ := offsetTriples_bounds t1 ht1
  obtain ⟨b21, b22, b23⟩ := offsetTriples_bounds t2 ht2
  rw [cloneWithDiff_in_range _ _ _ _ b11 b12 b13 (by omega) hs5,
      cloneWithDiff_in_range _ _ _ _ b21 b22 b23 (by omega) hs5] at heq
  simp only [Color.mk.injEq] at heq
  obtain ⟨e1, e2, e3⟩ := heq
  have hs : step ≠ 0 := by omega
  have f1 : t1.1 = t2.1 := by
    have h : (t1.1 : Int) * step = (t2.1 : Int) * step := by omega
    exact_mod_cast mul_right_cancel₀ hs h
  have f2 : t1.2.1 = t2.2.1 := by
    have h : (t1.2.1 : Int) * step = (t2.2.1 : Int) * step := by omega
    exact_mod_cast mul_right_cancel₀ hs h
  have f3 : t1.2.2 = t2.2.2 := by
    have h : (t1.2.2 : Int) * step = (t2.2.2 : Int) * step := by omega
    exact_mod_cast mul_right_cancel₀ hs h
  obtain ⟨a1, a2, a3⟩ := t1
  obtain ⟨c1, c2, c3⟩ := t2
  simp_all

/-! ### Claim C1 (corrected): palette generation -/

set_option maxRecDepth 8192 in
/-- C1 counterexample: at the valid count 216 and the positive step 128
the generated palette contains duplicate colors (JavaScript's `% 0x100`
folds the offsets 2*128 and 4*128 of the lattice together), so the claim
as stated — distinctness for every positive step — is false. -/
theorem palette_generation_counterexample :
    1 ≤ 216 ∧ (216 : Nat) ≤ 216 ∧ 1 ≤ (128 : Int) ∧
    ¬ (Game.make 216 128 (fun i => i) 0).colors.Nodup := by
  refine ⟨by norm_num, le_refl _, by norm_num, ?_⟩
  have h : (Game.make 216 128 (fun i => i) 0).colors = gameLattice 128 := by
    show (shuffle (fun i => i) (gameLattice 128)).take 216 = _
    rw [shuffle_id]
    exact List.take_of_length_le (by rw [gameLattice_length])
  rw [h]
  decide

/-- C1 (amended): for every count in [1, 216] and every positive step
with `5 * step ≤ 255` (so that no channel leaves `0..255`), for every
shuffle outcome and answer index below the count, the constructor's
palette has exactly `count` colors, each of the form white minus
`(r*step, g*step, b*step)` with `r, g, b` in `0..5`, with no duplicates,
and the answer is an element of the truncated palette. -/
theorem palette_generation_amended :
    ∀ (num : Nat) (step : Int) (rnd : Nat → Nat) (pick : Nat),
      1 ≤ num → num ≤ 216 → 1 ≤ step → 5 * step ≤ 255 → pick < num →
      (Game.make num step rnd pick).colors.length = num ∧
      (∀ c ∈ (Game.make num step rnd pick).colors,
        ∃ ro go bo : Nat, ro ≤ 5 ∧ go ≤ 5 ∧ bo ≤ 5 ∧
          c = ⟨255 - (ro : Int) * step, 255 - (go : Int) * step,
               255 - (bo : Int) * step⟩) ∧
      (Game.make num step rnd pick).colors.Nodup ∧
      ∃ a, (Game.make num step rnd pick).answer = some a ∧
        a ∈ (Game.make num step rnd pick).colors := by
  intro num step rnd pick hn1 hn2 hs1 hs5 hpick
  have hcolors : (Game.make num step rnd pick).colors =
      (shuffle rnd (gameLattice step)).take num := rfl
  have hlen : (shuffle rnd (gameLattice step)).length = 216 := by
    rw [(shuffle_perm rnd (gameLattice step)).length_eq, gameLattice_length]
  have hlen2 : (Game.make num step rnd pick).colors.length = num := by
    rw [hcolors, List.length_take, hlen]
    omega
  refine ⟨hlen2, ?_, ?_, ?_⟩
  · intro c hc
    rw [hcolors] at hc
    have hc2 : c ∈ shuffle rnd (gameLattice step) := List.take_subset _ _ hc
    have hc3 : c ∈ gameLattice step := (shuffle_perm rnd _).mem_iff.mp hc2
    rw [gameLattice_eq_map] at hc3
    obtain ⟨t, ht, rfl⟩ := List.mem_map.mp hc3
    obtain ⟨b1, b2, b3⟩ := offsetTriples_bounds t ht
    exact ⟨t.1, t.2.1, t.2.2, b1, b2, b3,
      cloneWithDiff_in_range _ _ _ _ b1 b2 b3 (by omega) hs5⟩
  · rw [hcolors]
    exact ((List.take_sublist _ _).nodup
      ((shuffle_perm rnd _).nodup_iff.mpr (gameLattice_nodup step hs1 hs5)))
  · have hp : pick < (Game.make num step rnd pick).colors.length := by omega
    have hans : (Game.make num step rnd pick).answer =
        (Game.make num step rnd pick).colors.get? pick := rfl
    refine ⟨(Game.make num step rnd pick).colors.get ⟨pick, hp⟩, ?_, ?_⟩
    · rw [hans, List.get?_eq_get hp]
    · exact List.get_mem _ _ _

/-- Witness for C1 (amended) at count 200, step 3, answer index 5. -/
theorem palette_generation_amended_witness :
    (1 ≤ 200 ∧ 200 ≤ 216 ∧ 1 ≤ (3 : Int) ∧ 5 * (3 : Int) ≤ 255 ∧ 5 < 200) ∧
    ((Game.make 200 3 (fun _ => 0) 5).colors.length = 200 ∧
     (∀ c ∈ (Game.make 200 3 (fun _ => 0) 5).colors,
       ∃ ro go bo : Nat, ro ≤ 5 ∧ go ≤ 5 ∧ bo ≤ 5 ∧
         c = ⟨255 - (ro : Int) * 3, 255 - (go : Int) * 3,
              255 - (bo : Int) * 3⟩) ∧
     (Game.make 200 3 (fun _ => 0) 5).colors.Nodup ∧
     ∃ a, (Game.make 200 3 (fun _ => 0) 5).answer = some a ∧
       a ∈ (Game.make 200 3 (fun _ => 0) 5).colors) :=
  ⟨⟨by norm_num, by norm_num, by norm_num, by norm_num, by norm_num⟩,
   palette_generation_amended 200 3 (fun _ => 0) 5 (by norm_num) (by norm_num)
     (by norm_num) (by norm_num) (by norm_num)⟩

/-! ### Hex round-trip lemmas -/

set_option maxRecDepth 10000 in
theorem paddedHex_digits :
    ∀ m : Nat, m < 256 →
      Color.paddedHex (m : Int) = [hexDigitChar (m / 16), hexDigitChar (m % 16)] := by
  decide

set_option maxRecDepth 2048 in
theorem hexDigitChar_is_hex :
    ∀ m : Nat, m < 16 → isHexDigitCI (hexDigitChar m) = true := by decide

set_option maxRecDepth 10000 in
theorem hexDigitChar_parse_back :
    ∀ m : Nat, m < 256 →
      16 * hexDigitVal (hexDigitChar (m / 16)) +
        hexDigitVal (hexDigitChar (m % 16)) = m := by
  decide

theorem toString_roundtrip {x y z : Int}
    (hx0 : 0 ≤ x) (hx1 : x < 256) (hy0 : 0 ≤ y) (hy1 : y < 256)
    (hz0 : 0 ≤ z) (hz1 : z < 256) :
    Color.fromHex (Color.toString ⟨x, y, z⟩) = some ⟨x, y, z⟩ := by
  lift x to ℕ using hx0 with mx
  lift y to ℕ using hy0 with my
  lift z to ℕ using hz0 with mz
  have hmx : mx < 256 := by exact_mod_cast hx1
  have hmy : my < 256 := by exact_mod_cast hy1
  have hmz : mz < 256 := by exact_mod_cast hz1
  have e : Color.toString ⟨(mx : Int), (my : Int), (mz : Int)⟩ =
      '#' :: hexDigitChar (mx / 16) :: hexDigitChar (mx % 16) ::
      hexDigitChar (my / 16) :: hexDigitChar (my % 16) ::
      hexDigitChar (mz / 16) :: hexDigitChar (mz % 16) :: [] := by
    unfold Color.toString
    rw [paddedHex_digits mx hmx, paddedHex_digits my hmy, paddedHex_digits mz hmz]
    rfl
  rw [e]
  simp only [Color.fromHex, searchHexMatch, matchHexAt,
    hexDigitChar_is_hex _ (by omega : mx / 16 < 16),
    hexDigitChar_is_hex _ (by omega : mx % 16 < 16),
    hexDigitChar_is_hex _ (by omega : my / 16 < 16),
    hexDigitChar_is_hex _ (by omega : my % 16 < 16),
    hexDigitChar_is_hex _ (by omega : mz / 16 < 16),
    hexDigitChar_is_hex _ (by omega : mz % 16 < 16),
    Bool.and_self, if_true, Option.map_some]
  rw [hexDigitChar_parse_back mx hmx, hexDigitChar_parse_back my hmy,
    hexDigitChar_parse_back mz hmz]
  show some (Color.new mx my mz) = some ⟨(mx : Int), (my : Int), (mz : Int)⟩
  unfold Color.new
  rw [jsMod_eq_self (by positivity) (by exact_mod_cast hmx),
      jsMod_eq_self (by positivity) (by exact_mod_cast hmy),
      jsMod_eq_self (by positivity) (by exact_mod_cast hmz)]

/-! ### Claim C8 (corrected): hex round-trip of generated colors -/

set_option maxRecDepth 8192 in
/-- C8 counterexample: at the positive step 52 the generator produces the
color with red channel `255 - 5*52 = -5` (JavaScript's `%` keeps it
negative); its `toString` is `#-5ffff`, which `fromHex` cannot parse, so
the round-trip claim fails for that generated color. -/
theorem roundtrip_counterexample :
    1 ≤ (52 : Int) ∧
    Color.mk (-5) 255 255 ∈ (Game.make 216 52 (fun i => i) 0).colors ∧
    Color.fromHex (Color.toString (Color.mk (-5) 255 255)) = none := by
  refine ⟨by norm_num, ?_, by decide⟩
  have h : (Game.make 216 52 (fun i => i) 0).colors = gameLattice 52 := by
    show (shuffle (fun i => i) (gameLattice 52)).take 216 = _
    rw [shuffle_id]
    exact List.take_of_length_le (by rw [gameLattice_length])
  rw [h]
  decide

/-- C8 (amended): for steps that keep every channel inside `0..255`
(positive and `5 * step ≤ 255` — all steps the game itself uses), every
color produced by the palette generator serializes with `toString` and
parses back with `fromHex` to an equal color. -/
theorem roundtrip_amended :
    ∀ (num : Nat) (step : Int) (rnd : Nat → Nat) (pick : Nat),
      1 ≤ step → 5 * step ≤ 255 →
      ∀ c ∈ (Game.make num step rnd pick).colors,
        Color.fromHex (Color.toString c) = some c := by
  intro num step rnd pick hs1 hs5 c hc
  have hc2 : c ∈ shuffle rnd (gameLattice step) := List.take_subset _ _ hc
  have hc3 : c ∈ gameLattice step := (shuffle_perm rnd _).mem_iff.mp hc2
  rw [gameLattice_eq_map] at hc3
  obtain ⟨t, ht, rfl⟩ := List.mem_map.mp hc3
  obtain ⟨b1, b2, b3⟩ := offsetTriples_bounds t ht
  rw [cloneWithDiff_in_range _ _ _ _ b1 b2 b3 (by omega) hs5]
  have bound : ∀ k : Nat, k ≤ 5 →
      0 ≤ 255 - (k : Int) * step ∧ 255 - (k : Int) * step < 256 := by
    intro k hk
    have h1 : (k : Int) * step ≤ 5 * step := by
      apply mul_le_mul_of_nonneg_right _ (by omega)
      exact_mod_cast hk
    have h2 : 0 ≤ (k : Int) * step := mul_nonneg (by positivity) (by omega)
    omega
  obtain ⟨h10, h11⟩ := bound t.1 b1
  obtain ⟨h20, h21⟩ := bound t.2.1 b2
  obtain ⟨h30, h31⟩ := bound t.2.2 b3
  exact toString_roundtrip h10 h11 h20 h21 h30 h31

set_option maxRecDepth 8192 in
/-- Witness for C8 (amended): white itself, generated at step 3, parses
back from its hex serialization. -/
theorem roundtrip_amended_witness :
    (1 ≤ (3 : Int) ∧ 5 * (3 : Int) ≤ 255 ∧
      Color.mk 255 255 255 ∈ (Game.make 216 3 (fun i => i) 0).colors) ∧
    Color.fromHex (Color.toString (Color.mk 255 255 255)) =
      some (Color.mk 255 255 255) := by
  have h : (Game.make 216 3 (fun i => i) 0).colors = gameLattice 3 := by
    show (shuffle (fun i => i) (gameLattice 3)).take 216 = _
    rw [shuffle_id]
    exact List.take_of_length_le (by rw [gameLattice_length])
  have hmem : Color.mk 255 255 255 ∈ (Game.make 216 3 (fun i => i) 0).colors := by
    rw [h]
    decide
  exact ⟨⟨by norm_num, by norm_num, hmem⟩,
    roundtrip_amended 216 3 (fun i => i) 0 (by norm_num) (by norm_num) _ hmem⟩

/-! ### Claim C4 (corrected): fromHex parsing -/

theorem searchHexMatch_append (pre post : List Char) (c1 c2 c3 c4 c5 c6 : Char)
    (h1 : isHexDigitCI c1 = true) (h2 : isHexDigitCI c2 = true)
    (h3 : isHexDigitCI c3 = true) (h4 : isHexDigitCI c4 = true)
    (h5 : isHexDigitCI c5 = true) (h6 : isHexDigitCI c6 = true) :
    (searchHexMatch
      (pre ++ '#' :: c1 :: c2 :: c3 :: c4 :: c5 :: c6 :: post)).isSome = true := by
  induction pre with
  | nil =>
    simp [searchHexMatch, matchHexAt, h1, h2, h3, h4, h5, h6]
  | cons p ps ih =>
    rw [List.cons_append]
    unfold searchHexMatch
    cases hm : matchHexAt
        (p :: (ps ++ '#' :: c1 :: c2 :: c3 :: c4 :: c5 :: c6 :: post)) with
    | some v => simp
    | none => simpa using ih

/-- C4 counterexample: `"#aabbccdd"` has the wrong length (9 characters),
so by the claim `fromHex` should return absent; the unanchored regex of
the source parses its first six hex digits instead. -/
theorem fromHex_counterexample :
    wellFormedHexStr "#aabbccdd".data = false ∧
    Color.fromHex "#aabbccdd".data = some (Color.mk 170 187 204) := by
  constructor
  · decide
  · decide

/-- C4 (amended): `fromHex` scans for the first occurrence of `#`
followed by six hex digits (case-insensitive) anywhere in the text: an
exact `#`-prefixed 6-hex-digit string parses to the corresponding color,
and any text embedding such a pattern — whatever its length or prefix —
parses as well rather than returning absent; absent is returned only
when no such substring exists.  The embedding is total: no exception. -/
theorem fromHex_amended :
    (∀ c1 c2 c3 c4 c5 c6 : Char,
      isHexDigitCI c1 = true → isHexDigitCI c2 = true →
      isHexDigitCI c3 = true → isHexDigitCI c4 = true →
      isHexDigitCI c5 = true → isHexDigitCI c6 = true →
      Color.fromHex ['#', c1, c2, c3, c4, c5, c6] =
        some (Color.new (16 * hexDigitVal c1 + hexDigitVal c2)
          (16 * hexDigitVal c3 + hexDigitVal c4)
          (16 * hexDigitVal c5 + hexDigitVal c6))) ∧
    (∀ (pre post : List Char) (c1 c2 c3 c4 c5 c6 : Char),
      isHexDigitCI c1 = true → isHexDigitCI c2 = true →
      isHexDigitCI c3 = true → isHexDigitCI c4 = true →
      isHexDigitCI c5 = true → isHexDigitCI c6 = true →
      Color.fromHex (pre ++ '#' :: c1 :: c2 :: c3 :: c4 :: c5 :: c6 :: post) ≠
        none) := by
  constructor
  · intro c1 c2 c3 c4 c5 c6 h1 h2 h3 h4 h5 h6
    simp [Color.fromHex, searchHexMatch, matchHexAt, h1, h2, h3, h4, h5, h6]
  · intro pre post c1 c2 c3 c4 c5 c6 h1 h2 h3 h4 h5 h6
    have hs := searchHexMatch_append pre post c1 c2 c3 c4 c5 c6 h1 h2 h3 h4 h5 h6
    unfold Color.fromHex
    cases hm : searchHexMatch
        (pre ++ '#' :: c1 :: c2 :: c3 :: c4 :: c5 :: c6 :: post) with
    | some v => simp
    | none => rw [hm] at hs; simp at hs

/-- Witness for C4 (amended): `"#aAbBcC"` (mixed case) parses. -/
theorem fromHex_amended_witness :
    (isHexDigitCI 'a' = true ∧ isHexDigitCI 'A' = true ∧
     isHexDigitCI 'b' = true ∧ isHexDigitCI 'B' = true ∧
     isHexDigitCI 'c' = true ∧ isHexDigitCI 'C' = true) ∧
    Color.fromHex ['#', 'a', 'A', 'b', 'B', 'c', 'C'] =
      some (Color.new (16 * hexDigitVal 'a' + hexDigitVal 'A')
        (16 * hexDigitVal 'b' + hexDigitVal 'B')
        (16 * hexDigitVal 'c' + hexDigitVal 'C')) :=
  ⟨⟨rfl, rfl, rfl, rfl, rfl, rfl⟩,
   fromHex_amended.1 'a' 'A' 'b' 'B' 'c' 'C' rfl rfl rfl rfl rfl rfl⟩

/-! ### Claim C9 (corrected): no argument validation on round start -/

theorem gameLattice_zero : ∀ c ∈ gameLattice 0, c = white := by
  rw [gameLattice_eq_map]
  intro c hc
  obtain ⟨t, _, rfl⟩ := List.mem_map.mp hc
  simp only [Color.cloneWithDiff, mul_zero, sub_zero]
  decide

set_option maxRecDepth 8192 in
/-- C9 counterexample: the constructor accepts count 0 (empty palette,
absent answer), count 300 (silently truncated to 216), and the
non-positive step 0 (three identical white swatches) — in every case it
returns a state normally instead of failing fast with an error. -/
theorem startRound_counterexample :
    (Game.make 0 1 (fun i => i) 0).colors = [] ∧
    (Game.make 0 1 (fun i => i) 0).answer = none ∧
    (Game.make 300 1 (fun i => i) 0).colors.length = 216 ∧
    (Game.make 3 0 (fun i => i) 0).colors = [white, white, white] := by
  refine ⟨?_, ?_, ?_, ?_⟩
  · show (shuffle (fun i => i) (gameLattice 1)).take 0 = []
    rw [List.take_zero]
  · show ((shuffle (fun i => i) (gameLattice 1)).take 0).get? 0 = none
    rw [List.take_zero]
    rfl
  · show ((shuffle (fun i => i) (gameLattice 1)).take 300).length = 216
    rw [shuffle_id]
    decide
  · show (shuffle (fun i => i) (gameLattice 0)).take 3 = [white, white, white]
    rw [shuffle_id]
    decide

/-- C9 (amended): the round constructor performs no argument validation
and never fails: for every count, step, shuffle outcome and pick it
returns a state whose palette has `min count 216` colors; count 0 yields
an absent (`undefined`) answer; and step 0 is accepted, every generated
color collapsing to pure white. -/
theorem startRound_no_validation :
    ∀ (num : Nat) (dif : Int) (rnd : Nat → Nat) (pick : Nat),
      (Game.make num dif rnd pick).colors.length = min num 216 ∧
      (Game.make 0 dif rnd pick).answer = none ∧
      ∀ c ∈ (Game.make num 0 rnd pick).colors, c = white := by
  intro num dif rnd pick
  refine ⟨?_, ?_, ?_⟩
  · show ((shuffle rnd (gameLattice dif)).take num).length = min num 216
    rw [List.length_take, (shuffle_perm rnd _).length_eq, gameLattice_length]
  · show (((shuffle rnd (gameLattice dif)).take 0).get? pick) = none
    rw [List.take_zero]
    rfl
  · intro c hc
    have hc2 : c ∈ shuffle rnd (gameLattice 0) := List.take_subset _ _ hc
    exact gameLattice_zero c ((shuffle_perm rnd _).mem_iff.mp hc2)

set_option maxRecDepth 8192 in
/-- Witness for C9 (amended), instantiated at counts 200, 0 and 216 with
step 7 and step 0. -/
theorem startRound_no_validation_witness :
    (white ∈ (Game.make 216 0 (fun i => i) 0).colors) ∧
    (Game.make 200 7 (fun i => i) 0).colors.length = min 200 216 ∧
    (Game.make 0 7 (fun i => i) 0).answer = none ∧
    white = white := by
  have h : (Game.make 216 0 (fun i => i) 0).colors = gameLattice 0 := by
    show (shuffle (fun i => i) (gameLattice 0)).take 216 = _
    rw [shuffle_id]
    exact List.take_of_length_le (by rw [gameLattice_length])
  have hmem : white ∈ (Game.make 216 0 (fun i => i) 0).colors := by
    rw [h]
    decide
  exact ⟨hmem, (startRound_no_validation 200 7 (fun i => i) 0).1,
    (startRound_no_validation 0 7 (fun i => i) 0).2.1,
    (startRound_no_validation 216 7 (fun i => i) 0).2.2 white hmem⟩

/-- Witness for C10 at a concrete random source and list. -/
theorem shuffle_is_permutation_witness :
    (shuffle (fun _ => 0) [1, 2, 3]).Perm [1, 2, 3] ∧
    ∀ a : Nat, (shuffle (fun _ => 0) [1, 2, 3]).count a = [1, 2, 3].count a :=
  shuffle_is_permutation (fun _ => 0) [1, 2, 3]
